/-
Verification development for the YT-TG-Upload repository.

Shallow embedding of the repository's glue logic:
  src/src/utils/validators.py   (URL validation)
  src/src/utils/helpers.py      (thumbnail conversion, cleanup)
  src/src/core/downloader.py    (format listing, download, playlist check,
                                 size estimation)
  src/src/telegram/uploader.py  (upload to the messaging backend)
  src/main.py                   (legacy monolithic implementation)

External effects are modelled explicitly: the extraction backend is an
oracle parameter (a value of type `Except String _`, or a function from
the option record the code builds to such a value), the filesystem is a
list of file paths, and the external process/messaging calls are oracle
functions.  Python exceptions are modelled with `Except`; a function that
cannot raise is total.  Logging calls are omitted (they have no effect on
the observable results the claims mention).
-/
import Mathlib

set_option maxRecDepth 4000
set_option linter.unusedVariables false

/-! ## URL validation (src/src/utils/validators.py, lines 4-17)

The source checks the URL against three regular expressions with
`re.match` (anchored at the start of the string):

  `^(https?\:\/\/)?(www\.)?(youtube\.com|youtu\.?be)\/.+$`
  `^(https?\:\/\/)?(www\.)?youtube\.com\/watch\?v=[\w-]+`
  `^(https?\:\/\/)?(www\.)?youtu\.be\/[\w-]+`

Each matcher below is a direct translation of one regex.  The optional
groups `(https?\:\/\/)?` and `(www\.)?` are consumed greedily; this is
faithful because no alternative continuation of either regex can begin
with the characters `http` resp. `www.`, so the greedy choice never loses
a match.  Note `youtu\.?be` matches both `youtu.be` and `youtube`, hence
the three-element host list for the first pattern.  `[\w-]` is modelled
as ASCII alphanumeric, underscore or dash (Python's `\w` additionally
covers non-ASCII word characters, which none of the claims exercise). -/

/-
String operations are carried out on the underlying character list
(`String.data`), so that every definition evaluates by kernel reduction
on concrete inputs.
-/

def dropIfPrefix (p s : String) : String :=
  if p.data.isPrefixOf s.data then ⟨s.data.drop p.data.length⟩ else s

/-- Consume the optional scheme group `(https?\:\/\/)?`. -/
def stripScheme (s : String) : String :=
  if "https://".data.isPrefixOf s.data then ⟨s.data.drop 8⟩
  else if "http://".data.isPrefixOf s.data then ⟨s.data.drop 7⟩
  else s

/-- Consume the optional `(www\.)?` group. -/
def stripWww (s : String) : String :=
  dropIfPrefix "www." s

/-- Matcher for `.+$` under `re.match` semantics: one or more non-newline
characters, then the end of the string (or the position just before a
single trailing newline, which is what `$` accepts in Python). -/
def dotPlusAtEnd (r : String) : Bool :=
  let core := if r.data.getLast? == some '\n' then r.data.dropLast else r.data
  (!core.isEmpty) && core.all (fun c => c != '\n')

/-- Character class `[\w-]` (ASCII fragment). -/
def isWordDash (c : Char) : Bool :=
  c.isAlphanum || c == '_' || c == '-'

/-- Does the string start with at least one `[\w-]` character?  Sufficient
for `[\w-]+` when the regex is not anchored at the end. -/
def firstCharWordDash (s : String) : Bool :=
  match s.data with
  | [] => false
  | c :: _ => isWordDash c

/-- Regex 1: `^(https?\:\/\/)?(www\.)?(youtube\.com|youtu\.?be)\/.+$`. -/
def matchPattern1 (url : String) : Bool :=
  let s := stripWww (stripScheme url)
  ["youtube.com", "youtu.be", "youtube"].any (fun h =>
    (h ++ "/").data.isPrefixOf s.data && dotPlusAtEnd ⟨s.data.drop (h.data.length + 1)⟩)

/-- Regex 2: `^(https?\:\/\/)?(www\.)?youtube\.com\/watch\?v=[\w-]+`. -/
def matchPattern2 (url : String) : Bool :=
  let s := stripWww (stripScheme url)
  "youtube.com/watch?v=".data.isPrefixOf s.data && firstCharWordDash ⟨s.data.drop 20⟩

/-- Regex 3: `^(https?\:\/\/)?(www\.)?youtu\.be\/[\w-]+`. -/
def matchPattern3 (url : String) : Bool :=
  let s := stripWww (stripScheme url)
  "youtu.be/".data.isPrefixOf s.data && firstCharWordDash ⟨s.data.drop 9⟩

/-- validators.validate_youtube_url (validators.py lines 4-17):
`any(re.match(pattern, url) for pattern in patterns)`. -/
def validate_youtube_url (url : String) : Bool :=
  matchPattern1 url || matchPattern2 url || matchPattern3 url

/-- validators.validate_format_selection (validators.py lines 19-23):
membership of the selected identifier in the available mapping's keys. -/
def validate_format_selection (available_formats : List (String × String))
    (selected_format : String) : Bool :=
  available_formats.any (fun kv => kv.1 == selected_format)

example : validate_youtube_url "youtube.com/abc" = true := by decide
example : validate_youtube_url "https://www.youtube.com/watch?v=dQw4w9WgXcQ" = true := by decide
example : validate_youtube_url "youtu.be/dQw4w9WgXcQ" = true := by decide
example : validate_youtube_url "" = false := by decide
example : validate_youtube_url "youtube.com" = false := by decide
example : validate_youtube_url "https://vimeo.com/123" = false := by decide

/-! ## Data model (src/src/models.py and raw backend metadata)

A raw format record as handed back by the extraction backend.  Fields the
code reads with `fmt.get(...)`: a field whose dictionary entry can be
absent is an `Option`; `height`, `fps` and `abr` are read with default 0
and are modelled directly as naturals (an absent key behaves as 0 in the
code).  A present-but-null numeric entry is not distinguished from an
absent one. -/
structure Fmt where
  format_id : String
  vcodec : Option String := none
  acodec : Option String := none
  height : Nat := 0
  fps : Nat := 0
  ext : String := ""
  abr : Nat := 0
  filesize : Option Nat := none
  filesize_approx : Option Nat := none
deriving DecidableEq

/-- One member record of a collection, as produced by flat extraction. -/
structure PlEntry where
  title : Option String := none
  url : Option String := none
deriving DecidableEq

/-- The info dictionary returned by the extraction backend's
`extract_info(url, download=False)`. -/
structure ExtractInfo where
  formats : List Fmt := []
  title : Option String := none
  duration : Option Nat := none
  thumbnail : Option String := none
  entries : Option (List PlEntry) := none
deriving DecidableEq

/-- models.DownloadResult (models.py lines 23-28). -/
structure DownloadResult where
  video_path : String
  thumbnail_path : Option String
  video_title : String
  duration : Nat
deriving DecidableEq

/-- Python exception kinds raised by the embedded functions. -/
inductive PyError where
  | valueError (msg : String)
  | fileNotFound (msg : String)
  | runtimeError (msg : String)
deriving DecidableEq

deriving instance DecidableEq for Except

/-! ## Path helpers

`rsplitBase s` is Python's `s.rsplit('.', 1)[0]`: everything before the
last dot, or the whole string when there is no dot.  `pathBasename` is
`os.path.basename`: the part after the last `/`. -/

def rsplitBase (s : String) : String :=
  if s.data.contains '.' then
    ⟨((s.data.reverse.dropWhile (fun c => c != '.')).drop 1).reverse⟩
  else s

def pathBasename (s : String) : String :=
  ⟨(s.data.reverse.takeWhile (fun c => c != '/')).reverse⟩

example : rsplitBase "My Video.mp4" = "My Video" := by decide
example : rsplitBase "a.b.c" = "a.b" := by decide
example : rsplitBase "nodots" = "nodots" := by decide
example : pathBasename "dir/sub/file.mp4" = "file.mp4" := by decide

/-! ## Python dict model

The format listings are Python dicts keyed by format id, in insertion
order; inserting an existing key overwrites its value in place. -/

def dictKeys {β : Type} (d : List (String × β)) : List String :=
  d.map Prod.fst

def dictInsert {β : Type} (d : List (String × β)) (k : String) (v : β) :
    List (String × β) :=
  if d.any (fun kv => kv.1 == k) then
    d.map (fun kv => if kv.1 == k then (k, v) else kv)
  else d ++ [(k, v)]

/-! ## Format Lister (downloader.py, get_video_qualities, lines 30-85)

The loop over `info.get('formats', [])`: a format with `vcodec != 'none'`
is entered into the video dict; a format with `acodec != 'none'` and
`vcodec == 'none'` is entered into the audio dict.  A `fmt.get('vcodec')`
of a missing key is Python `None`, which also differs from `'none'`; it
is modelled as `Option.none`, and the test `vcodec != 'none'` becomes
`vcodec ≠ some "none"`.  The human-readable descriptor string rendered at
lines 62-70 (resolution/fps/container/size) is elided: the dict value
carries the raw format record whose fields that string renders. -/

def classifyStep (acc : List (String × Fmt) × List (String × Fmt)) (f : Fmt) :
    List (String × Fmt) × List (String × Fmt) :=
  let acc1 := if f.vcodec ≠ some "none" then (dictInsert acc.1 f.format_id f, acc.2) else acc
  if f.acodec ≠ some "none" ∧ f.vcodec = some "none" then
    (acc1.1, dictInsert acc1.2 f.format_id f)
  else acc1

def classifyFormats (fmts : List Fmt) : List (String × Fmt) × List (String × Fmt) :=
  fmts.foldl classifyStep ([], [])

/-- Result record of get_video_qualities (the VideoInfo TypedDict). -/
structure VideoInfoR where
  video_formats : List (String × Fmt)
  audio_formats : List (String × Fmt)
  title : String
  duration : Nat
  thumbnail : Option String
deriving DecidableEq

/-- downloader.get_video_qualities (downloader.py lines 30-85).  The
extraction backend call is the `extract` parameter; both `except`
branches re-raise RuntimeError, modelled as a single error case. -/
def get_video_qualities (url : String) (extract : Except String ExtractInfo) :
    Except PyError VideoInfoR :=
  if !validate_youtube_url url then .error (.valueError ("Invalid YouTube URL: " ++ url))
  else
    match extract with
    | .error e => .error (.runtimeError ("Failed to extract video info: " ++ e))
    | .ok info =>
      let groups := classifyFormats info.formats
      .ok { video_formats := groups.1
            audio_formats := groups.2
            title := info.title.getD "Unknown Title"
            duration := info.duration.getD 0
            thumbnail := info.thumbnail }

/-! ## Size Estimator (downloader.py, get_estimated_size, lines 215-252) -/

/-- Per-format contribution: `fmt.get('filesize') or
fmt.get('filesize_approx', 0)` — Python truthiness makes a declared size
of `None` or `0` fall through to the approximate size. -/
def sizeOrApprox (f : Fmt) : Nat :=
  match f.filesize with
  | some n => if n ≠ 0 then n else f.filesize_approx.getD 0
  | none => f.filesize_approx.getD 0

/-- One iteration of the summing loop (lines 243-247).  The audio branch
is guarded by `if audio_format and ...`: an empty-string id is falsy. -/
def estimateStep (video_format : String) (audio_format : Option String)
    (acc : Nat) (f : Fmt) : Nat :=
  let acc1 := if f.format_id == video_format then acc + sizeOrApprox f else acc
  match audio_format with
  | some a => if a != "" && f.format_id == a then acc1 + sizeOrApprox f else acc1
  | none => acc1

/-- downloader.get_estimated_size (downloader.py lines 215-252).  The
format spec and option dict built at lines 228-236 only shape the backend
query, which is the `extract` parameter here; any backend exception is
caught and turns into the value 0 (lines 250-252).  The megabyte result
is modelled as an exact rational (IEEE rounding of the Python float
division is abstracted). -/
def get_estimated_size (url video_format : String) (audio_format : Option String)
    (extract : Except String ExtractInfo) : Except PyError ℚ :=
  if !validate_youtube_url url then .error (.valueError ("Invalid YouTube URL: " ++ url))
  else
    match extract with
    | .error _ => .ok 0
    | .ok info =>
      let total := info.formats.foldl (estimateStep video_format audio_format) 0
      .ok (if 0 < total then (total : ℚ) / (1024 * 1024) else 0)

/-! ## Playlist Expander (downloader.py, is_playlist and
get_playlist_entries, lines 147-213)

The option dict handed to the backend decides the extraction mode, so
the backend is modelled as a function of the option record.  Note the
dict built by is_playlist (lines 157-160) carries no `extract_flat` key:
the backend default (non-flat) applies.  get_playlist_entries (lines
183-187) sets `extract_flat: True`. -/

structure YdlOpts where
  quiet : Bool := false
  no_warnings : Bool := false
  extract_flat : Bool := false
  cookiefile : Option String := none
deriving DecidableEq

/-- Options built by is_playlist (downloader.py lines 157-162): no
`extract_flat` key, hence the default non-flat mode. -/
def isPlaylistOpts (cookies : Option String) : YdlOpts :=
  { quiet := true, no_warnings := true, cookiefile := cookies }

/-- Options built by get_playlist_entries (downloader.py lines 183-189):
flat extraction enabled. -/
def playlistEntriesOpts (cookies : Option String) : YdlOpts :=
  { quiet := true, no_warnings := true, extract_flat := true, cookiefile := cookies }

/-- downloader.is_playlist (downloader.py lines 147-170).
`bool(entries and len(entries) > 1)`; `info.get('entries', [])` with a
missing or null entries key gives the empty list. -/
def is_playlist (url : String) (cookies : Option String)
    (backend : YdlOpts → Except String ExtractInfo) : Bool :=
  if !validate_youtube_url url then false
  else
    match backend (isPlaylistOpts cookies) with
    | .error _ => false
    | .ok info =>
      let entries := info.entries.getD []
      !entries.isEmpty && decide (1 < entries.length)

/-- Number of member entries the flat extraction reports (the quantity
the spec's `is_collection` contract refers to). -/
def flatEntryCount (url : String) (cookies : Option String)
    (backend : YdlOpts → Except String ExtractInfo) : Nat :=
  match backend (playlistEntriesOpts cookies) with
  | .error _ => 0
  | .ok info => (info.entries.getD []).length

/-! ## Fetcher (downloader.py, download_video, lines 87-145) -/

/-- Outcome of the backend's `extract_info(url, download=True)` plus
`prepare_filename`: the prepared output filename and the metadata the
code reads from the info dict. -/
structure DlOutcome where
  title : Option String := none
  duration : Option Nat := none
  prepared : String
deriving DecidableEq

/-- downloader.download_video (downloader.py lines 87-145).  `fs` is the
set of files on disk after the backend ran.  An unknown container format
is replaced by `mp4` (with a logged warning, lines 103-106).  A missing
output file raises FileNotFoundError inside the `try`, which the
`except Exception` turns into RuntimeError (lines 127-128, 143-145). -/
def download_video (url video_format : String) (audio_format : Option String)
    (container_format : String) (backend : Except String DlOutcome)
    (fs : List String) : Except PyError DownloadResult :=
  if !validate_youtube_url url then .error (.valueError ("Invalid YouTube URL: " ++ url))
  else if video_format = "" then .error (.valueError "Video format ID cannot be empty")
  else
    let container := if ["mp4", "mkv", "webm"].contains container_format then container_format else "mp4"
    match backend with
    | .error e => .error (.runtimeError ("Failed to download video: " ++ e))
    | .ok out =>
      let base_filename := rsplitBase out.prepared
      let video_filename := base_filename ++ "." ++ container
      if !fs.contains video_filename then
        .error (.runtimeError ("Failed to download video: Downloaded video file not found: " ++ video_filename))
      else
        let thumbnail_path :=
          (["webp", "jpg", "png"].map (fun ext => base_filename ++ "." ++ ext)).find?
            (fun p => fs.contains p)
        .ok { video_path := video_filename
              thumbnail_path := thumbnail_path
              video_title := out.title.getD (rsplitBase (pathBasename video_filename))
              duration := out.duration.getD 0 }

/-! ## Thumbnail Converter (helpers.py lines 8-41; legacy main.py lines
175-220) -/

/-- Argument vector of the external-converter invocation in
helpers.convert_thumbnail (helpers.py line 30): no video filter. -/
def ffmpegCmd (input output : String) : List String :=
  ["ffmpeg", "-i", input, output]

/-- Argument vector of the external-converter invocation in the legacy
main.py convert_thumbnail (main.py lines 205-210): dimension
normalization filter included. -/
def ffmpegCmdLegacy (input output : String) : List String :=
  ["ffmpeg", "-i", input, "-vf", "scale=trunc(iw/2)*2:trunc(ih/2)*2", output]

/-- Environment oracles of the converter: whether the in-process image
library imports (ImportError if not), the outcome of its decode/encode,
and the outcome of running the external process on a given argv. -/
structure ConvertEnv where
  pilAvailable : Bool
  pilSave : Except String Unit := .ok ()
  ffmpegRun : List String → Except String Unit

/-- helpers.convert_thumbnail (helpers.py lines 8-41).  A missing input
gives none; a PIL failure other than ImportError reaches the outer
`except Exception` and gives none; an ImportError falls through to the
external converter, whose SubprocessError/FileNotFoundError gives none.
The function is total: no path raises. -/
def convert_thumbnail (input_thumbnail : String) (fs : List String)
    (env : ConvertEnv) : Option String :=
  if input_thumbnail == "" || !fs.contains input_thumbnail then none
  else
    let output_thumbnail := rsplitBase input_thumbnail ++ ".png"
    if env.pilAvailable then
      match env.pilSave with
      | .ok _ => some output_thumbnail
      | .error _ => none
    else
      match env.ffmpegRun (ffmpegCmd input_thumbnail output_thumbnail) with
      | .ok _ => some output_thumbnail
      | .error _ => none

/-! ## Cleanup (helpers.py, cleanup, lines 43-68) -/

/-- The list `files_to_clean` built at helpers.py lines 48-59: the
container file, the recorded thumbnail, and each candidate extension
sibling of the container's base name that is not already the recorded
thumbnail. -/
def cleanupFiles (r : DownloadResult) : List (Option String) :=
  let base_name := rsplitBase r.video_path
  [some r.video_path, r.thumbnail_path] ++
    ((["webp", "jpg", "png"].filter
        (fun ext => r.thumbnail_path ≠ some (base_name ++ "." ++ ext))).map
      (fun ext => some (base_name ++ "." ++ ext)))

/-- `os.remove`: fails (FileNotFoundError) when the path is absent. -/
def osRemove (fs : List String) (p : String) : Except String (List String) :=
  if fs.contains p then .ok (fs.erase p) else .error ("FileNotFoundError: " ++ p)

/-- One iteration of the deletion loop (helpers.py lines 61-66):
`if file_path and os.path.exists(file_path)` guards the removal; a
removal error is caught per file, logged, and the loop continues. -/
def cleanupStep (fs : List String) (e : Option String) : List String :=
  match e with
  | none => fs
  | some p =>
    if p != "" && fs.contains p then
      match osRemove fs p with
      | .ok fs2 => fs2
      | .error _ => fs
    else fs

/-- helpers.cleanup (helpers.py lines 43-68).  The whole body sits inside
`try/except` with every per-file error also caught, so the function is
total; it returns the filesystem after the deletions. -/
def cleanup (r : DownloadResult) (fs : List String) : List String :=
  (cleanupFiles r).foldl cleanupStep fs

/-! ## Relay (uploader.py, upload_to_telegram, lines 40-64) -/

/-- Keyword arguments assembled for the messaging backend's send call. -/
structure SendVideoArgs where
  chat_id : String
  video : String
  caption : String
  duration : Nat
  thumb : Option String
deriving DecidableEq

/-- The kwargs dict built at uploader.py lines 49-57: `thumb` is added
only when the recorded thumbnail path is truthy and exists on disk. -/
def sendVideoArgs (channel : String) (r : DownloadResult) (fs : List String) :
    SendVideoArgs :=
  { chat_id := channel
    video := r.video_path
    caption := r.video_title
    duration := r.duration
    thumb := match r.thumbnail_path with
      | some p => if p != "" && fs.contains p then some p else none
      | none => none }

/-- uploader.upload_to_telegram (uploader.py lines 40-64).  The existence
check on the video file happens before the `try` that opens the session:
its FileNotFoundError propagates unwrapped.  A failure of the send call
is wrapped into RuntimeError (lines 62-64). -/
def upload_to_telegram (r : DownloadResult) (fs : List String) (channel : String)
    (send : SendVideoArgs → Except String Unit) : Except PyError Bool :=
  if !fs.contains r.video_path then
    .error (.fileNotFound ("Video file not found: " ++ r.video_path))
  else
    match send (sendVideoArgs channel r fs) with
    | .ok _ => .ok true
    | .error e => .error (.runtimeError ("Failed to upload to Telegram: " ++ e))

/-! ## Collection selection-syntax parsing -/

/-- Parse a decimal token of the selection syntax. -/
def digitsToNat? (cs : List Char) : Option Nat :=
  if cs.isEmpty then none
  else if cs.all (fun c => c.isDigit) then
    some (cs.foldl (fun acc c => 10 * acc + (c.toNat - 48)) 0)
  else none

/-- Modelled from the spec: the interactive orchestrator that consumes
the collection selection syntax of §4.4 is not among the source files
under src/ (main.py handles only single resources), so the parser is
modelled from the spec's words: a token is a 1-based integer or an
inclusive range `a-b`; a reversed range or an index outside `[1, N]`
(0-based `[0, N)`) is rejected. -/
def parseToken (n : Nat) (tok : List Char) : Option (List Nat) :=
  match tok.splitOn '-' with
  | [a] =>
    match digitsToNat? a with
    | some i => if 1 ≤ i ∧ i ≤ n then some [i - 1] else none
    | none => none
  | [a, b] =>
    match digitsToNat? a, digitsToNat? b with
    | some i, some j =>
      if 1 ≤ i ∧ i ≤ j ∧ j ≤ n then some (List.range' (i - 1) (j - i + 1)) else none
    | _, _ => none
  | _ => none

/-- Modelled from the spec: selection-syntax parsing over an N-entry
collection — the literal token `all`, or a comma-separated list of
1-based integers and inclusive ranges; the resulting 0-based index set is
deduplicated and sorted; any invalid token or out-of-bounds index rejects
the whole input. -/
def parse_selection (input : String) (n : Nat) : Option (List Nat) :=
  if input = "all" then some (List.range n)
  else
    match (input.data.splitOn ',').mapM (parseToken n) with
    | some idxss =>
      let idxs := idxss.flatten
      some ((List.range n).filter (fun i => idxs.contains i))
    | none => none

example : parse_selection "all" 5 = some [0, 1, 2, 3, 4] := by decide
example : parse_selection "1,3-5" 5 = some [0, 2, 3, 4] := by decide
example : parse_selection "5-3" 5 = none := by decide
example : parse_selection "6" 5 = none := by decide
example : parse_selection "0" 5 = none := by decide

/-! # Theorems -/

/-- C4: `validate_youtube_url` accepts each of the three URL shapes
(bare host path, `watch?v=` query form, short-link form), with or without
scheme and with or without the `www.` prefix; it rejects the empty string
and strings outside the pattern family, and every accepted string matches
one of the three source regexes.  The function is a total Boolean
function of its argument (pure, no side effects, no exceptions). -/
theorem validate_youtube_url_spec :
    (validate_youtube_url "youtube.com/c/channel" = true ∧
     validate_youtube_url "www.youtube.com/c/channel" = true ∧
     validate_youtube_url "http://youtube.com/c/channel" = true ∧
     validate_youtube_url "https://www.youtube.com/c/channel" = true) ∧
    (validate_youtube_url "youtube.com/watch?v=dQw4w9WgXcQ" = true ∧
     validate_youtube_url "www.youtube.com/watch?v=dQw4w9WgXcQ" = true ∧
     validate_youtube_url "http://youtube.com/watch?v=dQw4w9WgXcQ" = true ∧
     validate_youtube_url "https://www.youtube.com/watch?v=dQw4w9WgXcQ" = true) ∧
    (validate_youtube_url "youtu.be/dQw4w9WgXcQ" = true ∧
     validate_youtube_url "www.youtu.be/dQw4w9WgXcQ" = true ∧
     validate_youtube_url "http://youtu.be/dQw4w9WgXcQ" = true ∧
     validate_youtube_url "https://www.youtu.be/dQw4w9WgXcQ" = true) ∧
    (validate_youtube_url "" = false ∧
     validate_youtube_url "https://vimeo.com/watch?v=abc" = false ∧
     validate_youtube_url "youtube.com" = false ∧
     validate_youtube_url "not a url" = false) ∧
    (∀ url, validate_youtube_url url = true →
      matchPattern1 url = true ∨ matchPattern2 url = true ∨ matchPattern3 url = true) := by
  refine ⟨by decide, by decide, by decide, by decide, ?_⟩
  intro url h
  simpa [validate_youtube_url, Bool.or_eq_true, or_assoc] using h

/-- Witness for C4's universal clause at a concrete accepted URL. -/
theorem validate_youtube_url_spec_witness :
    matchPattern1 "youtu.be/dQw4w9WgXcQ" = true ∨
    matchPattern2 "youtu.be/dQw4w9WgXcQ" = true ∨
    matchPattern3 "youtu.be/dQw4w9WgXcQ" = true :=
  validate_youtube_url_spec.2.2.2.2 "youtu.be/dQw4w9WgXcQ" (by decide)

/-- C6: the selection parser accepts `all` (all indices) and
comma-separated 1-based integers and inclusive ranges, rejects reversed
ranges and out-of-bounds indices, and every accepted result is a sorted,
duplicate-free list of indices inside `[0, N)`. -/
theorem parse_selection_spec :
    parse_selection "all" 5 = some [0, 1, 2, 3, 4] ∧
    parse_selection "1,3-5" 5 = some [0, 2, 3, 4] ∧
    parse_selection "5-3" 5 = none ∧
    parse_selection "6" 5 = none ∧
    (∀ input n out, parse_selection input n = some out →
      out.Pairwise (· < ·) ∧ out.Nodup ∧ ∀ i ∈ out, i < n) := by
  refine ⟨by decide, by decide, by decide, by decide, ?_⟩
  intro input n out h
  unfold parse_selection at h
  split at h
  · obtain rfl : List.range n = out := by simpa using h
    exact ⟨List.pairwise_lt_range n, (List.pairwise_lt_range n).nodup,
      fun i hi => List.mem_range.mp hi⟩
  · split at h
    · obtain rfl : (List.range n).filter _ = out := by simpa using h
      refine ⟨(List.pairwise_lt_range n).filter _,
        ((List.pairwise_lt_range n).filter _).nodup, fun i hi => ?_⟩
      exact List.mem_range.mp (List.mem_filter.mp hi).1
    · exact absurd h (by simp)

/-- Witness for C6's universal clause at the concrete input `1,3-5`. -/
theorem parse_selection_spec_witness :
    List.Pairwise (· < ·) [0, 2, 3, 4] ∧ List.Nodup [0, 2, 3, 4] ∧
      ∀ i ∈ [0, 2, 3, 4], i < 5 :=
  parse_selection_spec.2.2.2.2 "1,3-5" 5 [0, 2, 3, 4] (by decide)

/-- C10: for every valid URL, download_video with an empty video format
id fails with ValueError "Video format ID cannot be empty"; the result is
the same for every backend oracle and every filesystem state, so no
backend call is made and no file is touched. -/
theorem download_video_empty_format_value_error :
    ∀ url audio_format container_format backend fs,
      validate_youtube_url url = true →
      download_video url "" audio_format container_format backend fs =
        .error (.valueError "Video format ID cannot be empty") := by
  intro url a c backend fs h
  simp [download_video, h]

/-- Witness for C10 at a concrete valid URL. -/
theorem download_video_empty_format_value_error_witness :
    download_video "https://youtu.be/dQw4w9WgXcQ" "" none "mp4"
        (.ok { title := some "T", duration := some 10, prepared := "T.webm" }) [] =
      .error (.valueError "Video format ID cannot be empty") :=
  download_video_empty_format_value_error "https://youtu.be/dQw4w9WgXcQ" none "mp4"
    (.ok { title := some "T", duration := some 10, prepared := "T.webm" }) [] (by decide)

/-- C7: a container format outside the enumerated set is corrected to the
default mp4 (the call proceeds exactly as with mp4); and when the backend
reports completion but the expected produced file is absent from disk,
the call fails with the wrapped DownloadError. -/
theorem download_video_container_and_missing_file :
    (∀ url v a c backend fs, c ∉ (["mp4", "mkv", "webm"] : List String) →
      download_video url v a c backend fs = download_video url v a "mp4" backend fs) ∧
    (∀ url v a c out fs, validate_youtube_url url = true → v ≠ "" →
      c ∈ (["mp4", "mkv", "webm"] : List String) →
      (rsplitBase out.prepared ++ "." ++ c) ∉ fs →
      download_video url v a c (.ok out) fs =
        .error (.runtimeError ("Failed to download video: Downloaded video file not found: " ++
          (rsplitBase out.prepared ++ "." ++ c)))) := by
  constructor
  · intro url v a c backend fs hc
    have hc' : ¬(c = "mp4" ∨ c = "mkv" ∨ c = "webm") := by simpa using hc
    simp [download_video, hc']
  · intro url v a c out fs hu hv hc hfs
    have hc' : c = "mp4" ∨ c = "mkv" ∨ c = "webm" := by simpa using hc
    simp [download_video, hu, hv, hc', hfs]

/-- Witness for C7: the unknown container `avi` behaves as `mp4`, and an
absent output file yields the wrapped error. -/
theorem download_video_container_and_missing_file_witness :
    (download_video "youtu.be/dQw4w9WgXcQ" "137" none "avi"
        (.ok { title := some "T", duration := some 10, prepared := "T.webm" }) [] =
      download_video "youtu.be/dQw4w9WgXcQ" "137" none "mp4"
        (.ok { title := some "T", duration := some 10, prepared := "T.webm" }) []) ∧
    download_video "youtu.be/dQw4w9WgXcQ" "137" none "mp4"
        (.ok { title := some "T", duration := some 10, prepared := "T.webm" }) [] =
      .error (.runtimeError ("Failed to download video: Downloaded video file not found: " ++
        (rsplitBase "T.webm" ++ "." ++ "mp4"))) :=
  ⟨download_video_container_and_missing_file.1 "youtu.be/dQw4w9WgXcQ" "137" none "avi"
      (.ok { title := some "T", duration := some 10, prepared := "T.webm" }) [] (by decide),
   download_video_container_and_missing_file.2 "youtu.be/dQw4w9WgXcQ" "137" none "mp4"
      { title := some "T", duration := some 10, prepared := "T.webm" } [] (by decide) (by decide)
      (by decide) (by simp)⟩

/-! ## Lemmas about the dict model and the classification loop -/

theorem dictInsert_forall {β : Type} {P : String × β → Prop} {d : List (String × β)}
    {k : String} {v : β} (hd : ∀ kv ∈ d, P kv) (hv : P (k, v)) :
    ∀ kv ∈ dictInsert d k v, P kv := by
  intro kv hkv
  unfold dictInsert at hkv
  split at hkv
  · obtain ⟨kv', hkv', heq⟩ := List.mem_map.mp hkv
    by_cases h : kv'.1 == k
    · simp only [h, if_pos] at heq
      exact heq ▸ hv
    · simp only [h, if_neg, Bool.false_eq_true, not_false_iff] at heq
      exact heq ▸ hd kv' hkv'
  · rcases List.mem_append.mp hkv with h | h
    · exact hd kv h
    · simp only [List.mem_singleton] at h
      exact h ▸ hv

theorem dictInsert_key_self {β : Type} (d : List (String × β)) (k : String) (v : β) :
    k ∈ dictKeys (dictInsert d k v) := by
  unfold dictInsert dictKeys
  split
  · rename_i h
    obtain ⟨kv, hkv, hbeq⟩ := List.any_eq_true.mp h
    refine List.mem_map.mpr ⟨(k, v), List.mem_map.mpr ⟨kv, hkv, ?_⟩, rfl⟩
    simp only [hbeq, if_pos]
  · simp

theorem dictInsert_key_mono {β : Type} {d : List (String × β)} {k' : String}
    (h : k' ∈ dictKeys d) (k : String) (v : β) :
    k' ∈ dictKeys (dictInsert d k v) := by
  unfold dictInsert dictKeys
  obtain ⟨kv, hkv, hfst⟩ := List.mem_map.mp h
  split
  · refine List.mem_map.mpr ⟨if kv.1 == k then (k, v) else kv, List.mem_map.mpr ⟨kv, hkv, rfl⟩, ?_⟩
    by_cases hb : kv.1 == k
    · simp only [hb, if_pos]
      have : kv.1 = k := by simpa using hb
      simp [← this, hfst]
    · simp only [hb, Bool.false_eq_true, not_false_iff, if_neg]
      exact hfst
  · exact List.mem_map.mpr ⟨kv, List.mem_append_left _ hkv, hfst⟩

/-- The three case equations of one classification step. -/
theorem classifyStep_of_video (acc : List (String × Fmt) × List (String × Fmt)) (f : Fmt)
    (h : f.vcodec ≠ some "none") :
    classifyStep acc f = (dictInsert acc.1 f.format_id f, acc.2) := by
  simp [classifyStep, h]

theorem classifyStep_of_audio (acc : List (String × Fmt) × List (String × Fmt)) (f : Fmt)
    (hv : f.vcodec = some "none") (ha : f.acodec ≠ some "none") :
    classifyStep acc f = (acc.1, dictInsert acc.2 f.format_id f) := by
  simp [classifyStep, hv, ha]

theorem classifyStep_of_neither (acc : List (String × Fmt) × List (String × Fmt)) (f : Fmt)
    (hv : f.vcodec = some "none") (ha : f.acodec = some "none") :
    classifyStep acc f = acc := by
  simp [classifyStep, hv, ha]

/-- Value predicates preserved by one classification step: every record
stored in the video dict carries a video codec, every record stored in
the audio dict is audio-only. -/
theorem classifyStep_values {acc : List (String × Fmt) × List (String × Fmt)} {f : Fmt}
    (h1 : ∀ kv ∈ acc.1, kv.2.vcodec ≠ some "none")
    (h2 : ∀ kv ∈ acc.2, kv.2.vcodec = some "none" ∧ kv.2.acodec ≠ some "none") :
    (∀ kv ∈ (classifyStep acc f).1, kv.2.vcodec ≠ some "none") ∧
    (∀ kv ∈ (classifyStep acc f).2, kv.2.vcodec = some "none" ∧ kv.2.acodec ≠ some "none") := by
  by_cases hv : f.vcodec = some "none"
  · by_cases ha : f.acodec = some "none"
    · rw [classifyStep_of_neither acc f hv ha]
      exact ⟨h1, h2⟩
    · rw [classifyStep_of_audio acc f hv ha]
      exact ⟨h1, dictInsert_forall h2 ⟨hv, ha⟩⟩
  · rw [classifyStep_of_video acc f hv]
    exact ⟨dictInsert_forall h1 hv, h2⟩

theorem classifyStep_key_mono {acc : List (String × Fmt) × List (String × Fmt)}
    {k : String} (f : Fmt) :
    (k ∈ dictKeys acc.1 → k ∈ dictKeys (classifyStep acc f).1) ∧
    (k ∈ dictKeys acc.2 → k ∈ dictKeys (classifyStep acc f).2) := by
  by_cases hv : f.vcodec = some "none"
  · by_cases ha : f.acodec = some "none"
    · rw [classifyStep_of_neither acc f hv ha]
      exact ⟨id, id⟩
    · rw [classifyStep_of_audio acc f hv ha]
      exact ⟨id, fun h => dictInsert_key_mono h _ _⟩
  · rw [classifyStep_of_video acc f hv]
    exact ⟨fun h => dictInsert_key_mono h _ _, id⟩

theorem classifyFoldl_key_mono {k : String} :
    ∀ (fmts : List Fmt) (acc : List (String × Fmt) × List (String × Fmt)),
      (k ∈ dictKeys acc.1 → k ∈ dictKeys (fmts.foldl classifyStep acc).1) ∧
      (k ∈ dictKeys acc.2 → k ∈ dictKeys (fmts.foldl classifyStep acc).2) := by
  intro fmts
  induction fmts with
  | nil => exact fun acc => ⟨id, id⟩
  | cons f fmts ih =>
    intro acc
    exact ⟨fun h => ((ih (classifyStep acc f)).1 ((classifyStep_key_mono f).1 h)),
      fun h => ((ih (classifyStep acc f)).2 ((classifyStep_key_mono f).2 h))⟩

theorem classifyFoldl_values :
    ∀ (fmts : List Fmt) (acc : List (String × Fmt) × List (String × Fmt)),
      (∀ kv ∈ acc.1, kv.2.vcodec ≠ some "none") →
      (∀ kv ∈ acc.2, kv.2.vcodec = some "none" ∧ kv.2.acodec ≠ some "none") →
      (∀ kv ∈ (fmts.foldl classifyStep acc).1, kv.2.vcodec ≠ some "none") ∧
      (∀ kv ∈ (fmts.foldl classifyStep acc).2,
        kv.2.vcodec = some "none" ∧ kv.2.acodec ≠ some "none") := by
  intro fmts
  induction fmts with
  | nil => exact fun acc h1 h2 => ⟨h1, h2⟩
  | cons f fmts ih =>
    intro acc h1 h2
    obtain ⟨h1', h2'⟩ := classifyStep_values h1 h2
    exact ih (classifyStep acc f) h1' h2'

theorem classifyFoldl_video_key :
    ∀ (fmts : List Fmt) (acc : List (String × Fmt) × List (String × Fmt)) (f : Fmt),
      f ∈ fmts → f.vcodec ≠ some "none" →
      f.format_id ∈ dictKeys (fmts.foldl classifyStep acc).1 := by
  intro fmts
  induction fmts with
  | nil => intro acc f h; exact absurd h (List.not_mem_nil f)
  | cons g fmts ih =>
    intro acc f hmem hv
    rcases List.mem_cons.mp hmem with rfl | h
    · apply (classifyFoldl_key_mono fmts (classifyStep acc f)).1
      rw [classifyStep_of_video acc f hv]
      exact dictInsert_key_self _ _ _
    · exact ih (classifyStep acc g) f h hv

theorem classifyFoldl_audio_key :
    ∀ (fmts : List Fmt) (acc : List (String × Fmt) × List (String × Fmt)) (f : Fmt),
      f ∈ fmts → f.vcodec = some "none" → f.acodec ≠ some "none" →
      f.format_id ∈ dictKeys (fmts.foldl classifyStep acc).2 := by
  intro fmts
  induction fmts with
  | nil => intro acc f h; exact absurd h (List.not_mem_nil f)
  | cons g fmts ih =>
    intro acc f hmem hv ha
    rcases List.mem_cons.mp hmem with rfl | h
    · apply (classifyFoldl_key_mono fmts (classifyStep acc f)).2
      rw [classifyStep_of_audio acc f hv ha]
      exact dictInsert_key_self _ _ _
    · exact ih (classifyStep acc g) f h hv ha

/-- C1: get_video_qualities classifies variants so that every record
listed in the video group carries a non-null video codec and every record
listed in the audio group is audio-only (null video codec, non-null audio
codec) — hence no variant record is ever listed in both groups — while a
variant with a non-null video codec is keyed into the video group and an
audio-only variant is keyed into the audio group.  "Null codec" is the
backend's codec value `'none'`. -/
theorem get_video_qualities_classification :
    ∀ url info r, validate_youtube_url url = true →
      get_video_qualities url (.ok info) = .ok r →
      ((∀ kv ∈ r.video_formats, kv.2.vcodec ≠ some "none") ∧
       (∀ kv ∈ r.audio_formats, kv.2.vcodec = some "none" ∧ kv.2.acodec ≠ some "none")) ∧
      ((∀ f ∈ info.formats, f.vcodec ≠ some "none" →
          f.format_id ∈ dictKeys r.video_formats) ∧
       (∀ f ∈ info.formats, f.vcodec = some "none" → f.acodec ≠ some "none" →
          f.format_id ∈ dictKeys r.audio_formats)) := by
  intro url info r hu hr
  have hr' : r = { video_formats := (classifyFormats info.formats).1
                   audio_formats := (classifyFormats info.formats).2
                   title := info.title.getD "Unknown Title"
                   duration := info.duration.getD 0
                   thumbnail := info.thumbnail } := by
    simpa [get_video_qualities, hu] using hr.symm
  subst hr'
  refine ⟨classifyFoldl_values info.formats ([], []) (by simp) (by simp), ?_, ?_⟩
  · exact fun f hf hv => classifyFoldl_video_key info.formats ([], []) f hf hv
  · exact fun f hf hv ha => classifyFoldl_audio_key info.formats ([], []) f hf hv ha

/-- Synthetic variant list from the spec's test: a video-only variant, an
audio-only variant, and a variant carrying both codecs. -/
def fmtVideoOnly : Fmt :=
  { format_id := "137", vcodec := some "avc1", acodec := some "none",
    height := 1080, fps := 30, ext := "mp4", filesize := some 52428800 }

def fmtAudioOnly : Fmt :=
  { format_id := "140", vcodec := some "none", acodec := some "mp4a",
    ext := "m4a", abr := 128 }

def fmtBoth : Fmt :=
  { format_id := "18", vcodec := some "avc1", acodec := some "mp4a",
    height := 360, fps := 30, ext := "mp4" }

def infoSynthetic : ExtractInfo :=
  { formats := [fmtVideoOnly, fmtAudioOnly, fmtBoth],
    title := some "T", duration := some 10 }

/-- Witness for C1 on the synthetic variant list. -/
theorem get_video_qualities_classification_witness :
    ((∀ kv ∈ [("137", fmtVideoOnly), ("18", fmtBoth)], (kv.2).vcodec ≠ some "none") ∧
     (∀ kv ∈ [("140", fmtAudioOnly)],
       (kv.2).vcodec = some "none" ∧ (kv.2).acodec ≠ some "none")) ∧
    ((∀ f ∈ infoSynthetic.formats, f.vcodec ≠ some "none" →
        f.format_id ∈ dictKeys [("137", fmtVideoOnly), ("18", fmtBoth)]) ∧
     (∀ f ∈ infoSynthetic.formats, f.vcodec = some "none" → f.acodec ≠ some "none" →
        f.format_id ∈ dictKeys [("140", fmtAudioOnly)])) :=
  get_video_qualities_classification "youtu.be/dQw4w9WgXcQ" infoSynthetic
    { video_formats := [("137", fmtVideoOnly), ("18", fmtBoth)]
      audio_formats := [("140", fmtAudioOnly)]
      title := "T", duration := 10, thumbnail := none }
    (by decide) (by decide)

/-! ## Size estimation theorems (C2) -/

/-- C2 counterexample: on an invalid URL (here the empty string) the
function raises ValueError instead of returning 0.0 — the validation
check sits before the `try` block (downloader.py lines 225-226), so the
claim's "never raises an exception for every input" fails. -/
theorem get_estimated_size_invalid_url_raises :
    get_estimated_size "" "137" none (.ok {}) =
      .error (.valueError "Invalid YouTube URL: ") := by decide

/-- Spec-side restatement of the per-format contribution sum: over the
whole format list, a format matching the requested video id (and, when a
non-empty audio id was requested, a format matching it) contributes its
declared byte size when present and non-zero, else its approximate byte
size when present, else 0. -/
def estimateContribution (video_format : String) (audio_format : Option String)
    (f : Fmt) : Nat :=
  (if f.format_id = video_format then sizeOrApprox f else 0) +
    (match audio_format with
     | some a => if a ≠ "" ∧ f.format_id = a then sizeOrApprox f else 0
     | none => 0)

def specEstimateBytes (fmts : List Fmt) (video_format : String)
    (audio_format : Option String) : Nat :=
  (fmts.map (estimateContribution video_format audio_format)).sum

theorem estimateStep_eq (v : String) (a : Option String) (acc : Nat) (f : Fmt) :
    estimateStep v a acc f = acc + estimateContribution v a f := by
  unfold estimateStep estimateContribution
  cases a with
  | none => by_cases h1 : f.format_id = v <;> simp [h1]
  | some s =>
    simp only [beq_iff_eq, bne_iff_ne, Bool.and_eq_true, decide_eq_true_eq]
    split_ifs <;> omega

theorem estimate_foldl_eq (v : String) (a : Option String) :
    ∀ (fmts : List Fmt) (acc : Nat),
      fmts.foldl (estimateStep v a) acc = acc + specEstimateBytes fmts v a := by
  intro fmts
  induction fmts with
  | nil => simp [specEstimateBytes]
  | cons f fmts ih =>
    intro acc
    simp only [List.foldl_cons, ih, estimateStep_eq, specEstimateBytes, List.map_cons,
      List.sum_cons]
    omega

/-- C2 (amended): for every input whose URL passes validation the
function never raises — an extraction failure yields 0.0, and a
successful extraction yields the contribution sum in megabytes (declared
byte size when present and non-zero, else approximate byte size when
present, else 0, per requested format id). -/
theorem get_estimated_size_policy :
    ∀ url v a extract, validate_youtube_url url = true →
      ((∃ q, get_estimated_size url v a extract = .ok q) ∧
       (∀ e, extract = .error e → get_estimated_size url v a extract = .ok 0) ∧
       (∀ info, extract = .ok info →
         get_estimated_size url v a extract =
           .ok ((specEstimateBytes info.formats v a : ℚ) / (1024 * 1024)))) := by
  intro url v a extract hu
  have hmain : ∀ info, get_estimated_size url v a (.ok info) =
      .ok ((specEstimateBytes info.formats v a : ℚ) / (1024 * 1024)) := by
    intro info
    simp only [get_estimated_size, hu, Bool.not_true, Bool.false_eq_true, if_false,
      estimate_foldl_eq, Nat.zero_add]
    split
    · rfl
    · rename_i h
      have h0 : specEstimateBytes info.formats v a = 0 := by omega
      simp [h0]
  refine ⟨?_, ?_, fun info hi => hi ▸ hmain info⟩
  · cases extract with
    | error e => exact ⟨0, by simp [get_estimated_size, hu]⟩
    | ok info => exact ⟨_, hmain info⟩
  · intro e he
    subst he
    simp [get_estimated_size, hu]

/-- Witness for C2 at a concrete valid URL: one matching format with a
declared size of 2 MiB estimates to 2.0. -/
theorem get_estimated_size_policy_witness :
    (∃ q, get_estimated_size "youtu.be/dQw4w9WgXcQ" "137" none
        (.ok { formats := [{ format_id := "137", filesize := some 2097152 }] }) = .ok q) ∧
    (∀ e, (.ok { formats := [{ format_id := "137", filesize := some 2097152 }] } :
        Except String ExtractInfo) = .error e →
      get_estimated_size "youtu.be/dQw4w9WgXcQ" "137" none
        (.ok { formats := [{ format_id := "137", filesize := some 2097152 }] }) = .ok 0) ∧
    (∀ info, (.ok { formats := [{ format_id := "137", filesize := some 2097152 }] } :
        Except String ExtractInfo) = .ok info →
      get_estimated_size "youtu.be/dQw4w9WgXcQ" "137" none
        (.ok { formats := [{ format_id := "137", filesize := some 2097152 }] }) =
        .ok ((specEstimateBytes info.formats "137" none : ℚ) / (1024 * 1024))) :=
  get_estimated_size_policy "youtu.be/dQw4w9WgXcQ" "137" none
    (.ok { formats := [{ format_id := "137", filesize := some 2097152 }] }) (by decide)

/-! ## Cleanup theorems (C3) -/

theorem cleanupStep_none (fs : List String) : cleanupStep fs none = fs := rfl

theorem cleanupStep_some_present (fs : List String) (p : String)
    (hp : p ≠ "") (hin : p ∈ fs) : cleanupStep fs (some p) = fs.erase p := by
  have h1 : fs.contains p = true := by simpa [List.elem_iff] using hin
  simp [cleanupStep, osRemove, hp, h1, hin]

theorem cleanupStep_some_absent (fs : List String) (p : String)
    (h : p = "" ∨ p ∉ fs) : cleanupStep fs (some p) = fs := by
  rcases h with h | h
  · simp [cleanupStep, h]
  · have h1 : fs.contains p = false := by simpa [List.elem_iff] using h
    simp only [cleanupStep, h1, Bool.and_false, Bool.false_eq_true, if_false]

theorem cleanupStep_subset (fs : List String) (e : Option String) :
    cleanupStep fs e ⊆ fs := by
  cases e with
  | none => exact fun x h => h
  | some p =>
    by_cases hp : p = ""
    · rw [cleanupStep_some_absent fs p (Or.inl hp)]
      exact fun x h => h
    · by_cases hin : p ∈ fs
      · rw [cleanupStep_some_present fs p hp hin]
        exact List.erase_subset p fs
      · rw [cleanupStep_some_absent fs p (Or.inr hin)]
        exact fun x h => h

theorem cleanupFoldl_subset :
    ∀ (es : List (Option String)) (fs : List String),
      es.foldl cleanupStep fs ⊆ fs := by
  intro es
  induction es with
  | nil => exact fun fs x h => h
  | cons e es ih =>
    intro fs
    exact fun x hx => cleanupStep_subset fs e (ih (cleanupStep fs e) hx)

theorem cleanupStep_nodup {fs : List String} (h : fs.Nodup) (e : Option String) :
    (cleanupStep fs e).Nodup := by
  cases e with
  | none => exact h
  | some p =>
    by_cases hp : p = ""
    · rw [cleanupStep_some_absent fs p (Or.inl hp)]; exact h
    · by_cases hin : p ∈ fs
      · rw [cleanupStep_some_present fs p hp hin]; exact h.erase p
      · rw [cleanupStep_some_absent fs p (Or.inr hin)]; exact h

/-- Once the loop has processed an entry `some p` (with `p` nonempty and
the filesystem duplicate-free), `p` is gone from the final state. -/
theorem cleanupFoldl_removes :
    ∀ (es : List (Option String)) (fs : List String) (p : String), fs.Nodup →
      some p ∈ es → p ≠ "" → p ∉ es.foldl cleanupStep fs := by
  intro es
  induction es with
  | nil => intro fs p _ h; exact absurd h (List.not_mem_nil _)
  | cons e es ih =>
    intro fs p hnd hmem hp
    rcases List.mem_cons.mp hmem with rfl | h
    · intro hfin
      have hstep : p ∉ cleanupStep fs (some p) := by
        by_cases hin : p ∈ fs
        · rw [cleanupStep_some_present fs p hp hin]
          exact hnd.not_mem_erase
        · rw [cleanupStep_some_absent fs p (Or.inr hin)]
          exact hin
      exact hstep (cleanupFoldl_subset es (cleanupStep fs (some p)) hfin)
    · exact ih (cleanupStep fs e) p (cleanupStep_nodup hnd e) h hp

/-- A pass of the loop over a state containing none of its (nonempty)
targets is the identity. -/
theorem cleanupFoldl_fixed :
    ∀ (es : List (Option String)) (fs : List String),
      (∀ p, some p ∈ es → p ≠ "" → p ∉ fs) → es.foldl cleanupStep fs = fs := by
  intro es
  induction es with
  | nil => intro fs _; rfl
  | cons e es ih =>
    intro fs h
    have hstep : cleanupStep fs e = fs := by
      cases e with
      | none => rfl
      | some p =>
        by_cases hp : p = ""
        · exact cleanupStep_some_absent fs p (Or.inl hp)
        · exact cleanupStep_some_absent fs p (Or.inr (h p (List.mem_cons_self _ _) hp))
    rw [List.foldl_cons, hstep]
    exact ih fs (fun p hm hp => h p (List.mem_cons_of_mem e hm) hp)

/-- C3 counterexample: cleanup does not attempt the sidecar metadata
file.  With the container `video.mp4` and a sidecar `video.info.json`
both on disk, cleanup removes the container but leaves the sidecar: the
candidate-extension set (`webp`, `jpg`, `png`, helpers.py line 56) does
not include it. -/
def resultNoThumb : DownloadResult :=
  { video_path := "video.mp4", thumbnail_path := none, video_title := "T", duration := 10 }

theorem cleanup_leaves_sidecar_metadata :
    cleanup resultNoThumb ["video.mp4", "video.info.json"] = ["video.info.json"] ∧
    some "video.info.json" ∉ cleanupFiles resultNoThumb := by
  constructor
  · decide
  · decide

/-- C3 (amended): cleanup attempts deletion of the container file, the
recorded thumbnail file, and every member of the candidate-extension set
`webp`/`jpg`/`png` sharing the container's base name (the sidecar
metadata file is not among the attempted deletions); every attempt is
guarded by an existence check, so any subset of the files may already be
absent; the function is total (every failure is caught), never adds
files, and a second call on the same DownloadResult changes nothing. -/
theorem cleanup_contract :
    ∀ (r : DownloadResult) (fs : List String), fs.Nodup →
      (some r.video_path ∈ cleanupFiles r ∧
       r.thumbnail_path ∈ cleanupFiles r ∧
       (∀ ext ∈ (["webp", "jpg", "png"] : List String),
         r.thumbnail_path ≠ some (rsplitBase r.video_path ++ "." ++ ext) →
         some (rsplitBase r.video_path ++ "." ++ ext) ∈ cleanupFiles r)) ∧
      cleanup r fs ⊆ fs ∧
      cleanup r (cleanup r fs) = cleanup r fs := by
  intro r fs hnd
  refine ⟨⟨?_, ?_, ?_⟩, cleanupFoldl_subset _ fs, ?_⟩
  · simp [cleanupFiles]
  · simp [cleanupFiles]
  · intro ext hext hne
    unfold cleanupFiles
    refine List.mem_append_right _ (List.mem_map.mpr ⟨ext, List.mem_filter.mpr ⟨hext, ?_⟩, rfl⟩)
    simpa using hne
  · exact cleanupFoldl_fixed _ _ (fun p hm hp =>
      cleanupFoldl_removes (cleanupFiles r) fs p hnd hm hp)

def resultWithThumb : DownloadResult :=
  { video_path := "video.mp4", thumbnail_path := some "video.png",
    video_title := "T", duration := 10 }

/-- Witness for C3 on a concrete DownloadResult and filesystem. -/
theorem cleanup_contract_witness :
    (some "video.mp4" ∈ cleanupFiles resultWithThumb ∧
     resultWithThumb.thumbnail_path ∈ cleanupFiles resultWithThumb ∧
     (∀ ext ∈ (["webp", "jpg", "png"] : List String),
       resultWithThumb.thumbnail_path ≠
         some (rsplitBase resultWithThumb.video_path ++ "." ++ ext) →
       some (rsplitBase resultWithThumb.video_path ++ "." ++ ext) ∈
         cleanupFiles resultWithThumb)) ∧
    cleanup resultWithThumb ["video.mp4", "video.png", "other.txt"] ⊆
      ["video.mp4", "video.png", "other.txt"] ∧
    cleanup resultWithThumb
        (cleanup resultWithThumb ["video.mp4", "video.png", "other.txt"]) =
      cleanup resultWithThumb ["video.mp4", "video.png", "other.txt"] := by
  have h := cleanup_contract resultWithThumb ["video.mp4", "video.png", "other.txt"] (by decide)
  exact ⟨⟨h.1.1, h.1.2.1, h.1.2.2⟩, h.2.1, h.2.2⟩

/-! ## Playlist expansion theorems (C5) -/

/-- A backend for which the flat extraction reports one member entry but
the plain (non-flat) extraction — the one is_playlist actually performs —
reports two. -/
def backendFlatDiffers : YdlOpts → Except String ExtractInfo := fun opts =>
  if opts.extract_flat then .ok { entries := some [{}] }
  else .ok { entries := some [{}, {}] }

/-- C5 counterexample: is_playlist reports true although the flat
extraction of the URL yields exactly one member entry — the option dict
is_playlist builds (downloader.py lines 157-160) does not enable the flat
mode, so the answer is determined by the non-flat extraction. -/
theorem is_playlist_true_with_single_flat_entry :
    is_playlist "youtube.com/playlist?list=PL1" none backendFlatDiffers = true ∧
    flatEntryCount "youtube.com/playlist?list=PL1" none backendFlatDiffers = 1 := by
  constructor
  · decide
  · decide

/-- C5 (amended): is_playlist never raises (it is a total Boolean
function; a backend error is swallowed as false), and it returns true
exactly when the URL validates and the extraction it performs — with the
non-flat option dict of downloader.py lines 157-160 — succeeds with
strictly more than one member entry. -/
theorem is_playlist_characterization :
    ∀ url cookies backend,
      is_playlist url cookies backend = true ↔
        (validate_youtube_url url = true ∧
         ∃ info, backend (isPlaylistOpts cookies) = .ok info ∧
           1 < (info.entries.getD []).length) := by
  intro url cookies backend
  unfold is_playlist
  by_cases hu : validate_youtube_url url
  · simp only [hu, Bool.not_true, Bool.false_eq_true, if_false, true_and]
    cases hb : backend (isPlaylistOpts cookies) with
    | error e => simp
    | ok info =>
      simp only [Except.ok.injEq, exists_eq_left']
      constructor
      · intro h
        have h' := (Bool.and_eq_true _ _).mp h
        exact of_decide_eq_true h'.2
      · intro h
        refine (Bool.and_eq_true _ _).mpr ⟨?_, decide_eq_true h⟩
        have : (info.entries.getD []) ≠ [] := by
          intro hnil
          rw [hnil] at h
          exact absurd h (by simp)
        simpa [List.isEmpty_iff] using this
  · simp [hu]

/-- Witness instance of the C5 characterization at a concrete backend. -/
theorem is_playlist_characterization_witness :
    is_playlist "youtube.com/playlist?list=PL1" none backendFlatDiffers = true ↔
      (validate_youtube_url "youtube.com/playlist?list=PL1" = true ∧
       ∃ info, backendFlatDiffers (isPlaylistOpts none) = .ok info ∧
         1 < (info.entries.getD []).length) :=
  is_playlist_characterization "youtube.com/playlist?list=PL1" none backendFlatDiffers

/-! ## Upload theorems (C8) -/

/-- Is the result the wrapped upload failure (the code's RuntimeError,
the spec's UploadError)? -/
def isUploadErrorResult : Except PyError Bool → Bool
  | .error (.runtimeError _) => true
  | _ => false

/-- Is the result any raised exception? -/
def isErrorResult : Except PyError Bool → Bool
  | .error _ => true
  | _ => false

def sendAlwaysOk : SendVideoArgs → Except String Unit := fun _ => .ok ()

def resultUpload : DownloadResult :=
  { video_path := "v.mp4", thumbnail_path := none, video_title := "T", duration := 9 }

/-- C8 counterexample: with the video file absent, upload_to_telegram
fails — but with the bare file-not-found error raised before the session
is opened (uploader.py lines 44-45), not with an UploadError wrapping the
failure. -/
theorem upload_missing_video_not_upload_error :
    upload_to_telegram resultUpload [] "chan" sendAlwaysOk =
      .error (.fileNotFound "Video file not found: v.mp4") ∧
    isErrorResult (upload_to_telegram resultUpload [] "chan" sendAlwaysOk) = true ∧
    isUploadErrorResult (upload_to_telegram resultUpload [] "chan" sendAlwaysOk) = false := by
  refine ⟨by decide, by decide, by decide⟩

/-- C8 (amended): a missing video file fails with an unwrapped
file-not-found error before any session is opened; a failing transmission
call fails with the UploadError wrap; a successful transmission returns
true; and the thumbnail is attached to the send call exactly when the
recorded thumbnail path is truthy and exists on disk at call time (a
stale reference is silently omitted). -/
theorem upload_to_telegram_contract :
    ∀ r fs channel send,
      (r.video_path ∉ fs →
        upload_to_telegram r fs channel send =
          .error (.fileNotFound ("Video file not found: " ++ r.video_path))) ∧
      (∀ e, r.video_path ∈ fs →
        send (sendVideoArgs channel r fs) = .error e →
        upload_to_telegram r fs channel send =
          .error (.runtimeError ("Failed to upload to Telegram: " ++ e))) ∧
      (r.video_path ∈ fs →
        send (sendVideoArgs channel r fs) = .ok () →
        upload_to_telegram r fs channel send = .ok true) ∧
      (∀ p, (sendVideoArgs channel r fs).thumb = some p ↔
        (r.thumbnail_path = some p ∧ p ≠ "" ∧ p ∈ fs)) := by
  intro r fs channel send
  refine ⟨?_, ?_, ?_, ?_⟩
  · intro h
    have h1 : fs.contains r.video_path = false := by simpa [List.elem_iff] using h
    simp [upload_to_telegram, h1, h]
  · intro e h hs
    have h1 : fs.contains r.video_path = true := by simpa [List.elem_iff] using h
    simp [upload_to_telegram, h1, h, hs]
  · intro h hs
    have h1 : fs.contains r.video_path = true := by simpa [List.elem_iff] using h
    simp [upload_to_telegram, h1, h, hs]
  · intro p
    unfold sendVideoArgs
    cases ht : r.thumbnail_path with
    | none => simp
    | some q =>
      by_cases hq : q = ""
      · simp only [hq, bne_self_eq_false, Bool.false_and, Bool.false_eq_true, if_false]
        constructor
        · intro h
          exact absurd h (by simp)
        · intro ⟨h2, h3, _⟩
          exact absurd (Option.some.inj h2).symm h3
      · by_cases hin : q ∈ fs
        · have h1 : fs.contains q = true := by simpa [List.elem_iff] using hin
          simp only [hq, h1, bne_iff_ne, ne_eq, not_false_iff, decide_true_eq_true]
          constructor
          · intro h
            have : q = p := by simpa [hq, h1] using h
            exact ⟨by rw [this], by rw [← this]; exact ⟨hq, hin⟩⟩
          · intro ⟨h2, _, _⟩
            have : q = p := Option.some.inj h2
            simpa [hq, h1] using congrArg some this
        · have h1 : fs.contains q = false := by simpa [List.elem_iff] using hin
          simp only [hq, h1]
          constructor
          · intro h
            exact absurd h (by simp [hq, h1])
          · intro ⟨h2, _, h3⟩
            exact absurd ((Option.some.inj h2) ▸ h3) hin

def sendAlwaysFails : SendVideoArgs → Except String Unit := fun _ => .error "FloodWait"

/-- Witness for C8 on concrete states: a missing file, a failed send, a
successful send, and a thumbnail reference that exists on disk. -/
theorem upload_to_telegram_contract_witness :
    (upload_to_telegram resultUpload [] "chan" sendAlwaysFails =
      .error (.fileNotFound ("Video file not found: " ++ resultUpload.video_path))) ∧
    (upload_to_telegram resultUpload ["v.mp4"] "chan" sendAlwaysFails =
      .error (.runtimeError ("Failed to upload to Telegram: " ++ "FloodWait"))) ∧
    (upload_to_telegram resultWithThumb ["video.mp4", "video.png"] "chan" sendAlwaysOk =
      .ok true) ∧
    ((sendVideoArgs "chan" resultWithThumb ["video.mp4", "video.png"]).thumb =
        some "video.png" ↔
      (resultWithThumb.thumbnail_path = some "video.png" ∧ "video.png" ≠ "" ∧
        "video.png" ∈ (["video.mp4", "video.png"] : List String))) :=
  ⟨(upload_to_telegram_contract resultUpload [] "chan" sendAlwaysFails).1 (by decide),
   (upload_to_telegram_contract resultUpload ["v.mp4"] "chan" sendAlwaysFails).2.1
     "FloodWait" (by decide) rfl,
   (upload_to_telegram_contract resultWithThumb ["video.mp4", "video.png"] "chan"
     sendAlwaysOk).2.2.1 (by decide) rfl,
   (upload_to_telegram_contract resultWithThumb ["video.mp4", "video.png"] "chan"
     sendAlwaysOk).2.2.2 "video.png"⟩

/-! ## Thumbnail conversion theorems (C9) -/

/-- C9 counterexample: the argv helpers.convert_thumbnail hands the
external converter (helpers.py line 30) carries no video-filter flag and
no pixel-dimension normalization filter. -/
theorem helpers_ffmpeg_has_no_scale_filter :
    ffmpegCmd "thumb.webp" "thumb.png" = ["ffmpeg", "-i", "thumb.webp", "thumb.png"] ∧
    "-vf" ∉ ffmpegCmd "thumb.webp" "thumb.png" ∧
    "scale=trunc(iw/2)*2:trunc(ih/2)*2" ∉ ffmpegCmd "thumb.webp" "thumb.png" := by
  refine ⟨by decide, by decide, by decide⟩

/-- C9 (amended): a missing input yields none; when the in-process image
library is unavailable, helpers.convert_thumbnail falls back to invoking
the external converter — without any pixel-dimension filter (only the
legacy main.py converter passes the even-dimension normalization filter);
and when that external invocation is unavailable or fails, the function
returns none rather than raising (it is total). -/
theorem convert_thumbnail_fallback :
    ∀ input fs env,
      (input ∉ fs → convert_thumbnail input fs env = none) ∧
      (env.pilAvailable = false → input ≠ "" → input ∈ fs →
        convert_thumbnail input fs env =
          (match env.ffmpegRun (ffmpegCmd input (rsplitBase input ++ ".png")) with
           | .ok _ => some (rsplitBase input ++ ".png")
           | .error _ => none)) ∧
      (∀ e, env.pilAvailable = false → input ≠ "" → input ∈ fs →
        env.ffmpegRun (ffmpegCmd input (rsplitBase input ++ ".png")) = .error e →
        convert_thumbnail input fs env = none) ∧
      ffmpegCmdLegacy input (rsplitBase input ++ ".png") =
        ["ffmpeg", "-i", input, "-vf", "scale=trunc(iw/2)*2:trunc(ih/2)*2",
          rsplitBase input ++ ".png"] := by
  intro input fs env
  refine ⟨?_, ?_, ?_, rfl⟩
  · intro h
    have h1 : fs.contains input = false := by simpa [List.elem_iff] using h
    simp [convert_thumbnail, h1, h]
  · intro hpil hne hin
    have h1 : fs.contains input = true := by simpa [List.elem_iff] using hin
    simp [convert_thumbnail, hpil, hne, h1, hin]
  · intro e hpil hne hin hf
    have h1 : fs.contains input = true := by simpa [List.elem_iff] using hin
    simp [convert_thumbnail, hpil, hne, h1, hin, hf]

def convEnvNoPilFailingRun : ConvertEnv :=
  { pilAvailable := false, ffmpegRun := fun _ => .error "ffmpeg not found" }

/-- Witness for C9 at a concrete environment without the image library
and with a failing external converter. -/
theorem convert_thumbnail_fallback_witness :
    (convert_thumbnail "t.webp" [] convEnvNoPilFailingRun = none) ∧
    (convert_thumbnail "t.webp" ["t.webp"] convEnvNoPilFailingRun =
      (match convEnvNoPilFailingRun.ffmpegRun
          (ffmpegCmd "t.webp" (rsplitBase "t.webp" ++ ".png")) with
       | .ok _ => some (rsplitBase "t.webp" ++ ".png")
       | .error _ => none)) ∧
    (convert_thumbnail "t.webp" ["t.webp"] convEnvNoPilFailingRun = none) ∧
    ffmpegCmdLegacy "t.webp" (rsplitBase "t.webp" ++ ".png") =
      ["ffmpeg", "-i", "t.webp", "-vf", "scale=trunc(iw/2)*2:trunc(ih/2)*2",
        rsplitBase "t.webp" ++ ".png"] :=
  ⟨(convert_thumbnail_fallback "t.webp" [] convEnvNoPilFailingRun).1 (by decide),
   (convert_thumbnail_fallback "t.webp" ["t.webp"] convEnvNoPilFailingRun).2.1
     rfl (by decide) (by decide),
   (convert_thumbnail_fallback "t.webp" ["t.webp"] convEnvNoPilFailingRun).2.2.1
     "ffmpeg not found" rfl (by decide) (by decide) rfl,
   (convert_thumbnail_fallback "t.webp" ["t.webp"] convEnvNoPilFailingRun).2.2.2⟩
